import Mathlib

/-!
Shallow embedding of `src/utils/timers.py` (Station-Test-Patterns).

The file models the timer core: the per-period square-wave timer
(`_Single_Square_Wave_Timer` in the source, `Single_Square_Wave_Timer` here)
and the registry class (`Square_Wave_Timer`).

Times are rationals (the Python code uses floats; every claim is about
ordering and addition of small time values, which rationals model exactly).
Python `None` time values become `Option ℚ`.  Operations that can raise a
Python exception (the `None + float` TypeError in `_set_next_toggle_time`,
and the dict `KeyError` which is in fact unreachable) are `Except`-valued.
-/

namespace StationTimers

/-- Equality of `Except` values is decidable when it is on both sides. -/
instance {ε α : Type} [DecidableEq ε] [DecidableEq α] :
    DecidableEq (Except ε α) := fun a b =>
  match a, b with
  | .ok x, .ok y =>
      if h : x = y then .isTrue (by rw [h]) else .isFalse (by simp [h])
  | .error x, .error y =>
      if h : x = y then .isTrue (by rw [h]) else .isFalse (by simp [h])
  | .ok _, .error _ => .isFalse (by simp)
  | .error _, .ok _ => .isFalse (by simp)

/-- A Python runtime error that the embedded code can raise. -/
inductive PyError where
  | typeError
  | keyError
deriving DecidableEq, Repr

/-- State of `_Single_Square_Wave_Timer`: fields `_toggle_period_sec`
(the half period, set to `period_sec / 2`), `_next_toggle_time`
(`None` before it is first scheduled), `_toggle_state`, `_is_rising`,
`_is_falling`. -/
structure Single_Square_Wave_Timer where
  toggle_period_sec : ℚ
  next_toggle_time : Option ℚ
  toggle_state : Bool
  is_rising : Bool
  is_falling : Bool
deriving DecidableEq, Repr

/-- `_set_next_toggle_time(curr_time_sec)`: if the argument is `None` it
falls back to the stored `_next_toggle_time`; adding `None + float`
raises a TypeError, mirrored by `Except.error .typeError`. -/
def set_next_toggle_time (t : Single_Square_Wave_Timer)
    (curr_time_sec : Option ℚ) : Except PyError Single_Square_Wave_Timer :=
  match (match curr_time_sec with
         | none => t.next_toggle_time
         | some x => some x) with
  | none => .error .typeError
  | some x => .ok { t with next_toggle_time := some (x + t.toggle_period_sec) }

/-- Python comparison `a > b` on optional floats: comparing `None` with a
float raises a TypeError. -/
def pyGT (a b : Option ℚ) : Except PyError Bool :=
  match a, b with
  | some x, some y => .ok (decide (y < x))
  | _, _ => .error .typeError

/-- `_Single_Square_Wave_Timer.update_timer(curr_time_sec)`: schedule the
first deadline if unset, clear the edge flags, and toggle when the supplied
time strictly exceeds the stored deadline (advancing the deadline by the
half period from its previous value). -/
def update_timer (t : Single_Square_Wave_Timer) (curr_time_sec : Option ℚ) :
    Except PyError Single_Square_Wave_Timer := do
  let t ← match t.next_toggle_time with
    | none => set_next_toggle_time t curr_time_sec
    | some _ => pure t
  let t := { t with is_rising := false, is_falling := false }
  let changed ← pyGT curr_time_sec t.next_toggle_time
  if changed then
    let s := !t.toggle_state
    set_next_toggle_time
      { t with toggle_state := s, is_rising := s, is_falling := !s } none
  else
    pure t

/-- `_Single_Square_Wave_Timer.__init__(period_sec, curr_time_sec)`:
no validation of `period_sec`; sets the half period, defaults all state
to false/unset, then runs `update_timer` once on the creation time. -/
def singleTimer_init (period_sec : ℚ) (curr_time_sec : Option ℚ) :
    Except PyError Single_Square_Wave_Timer :=
  update_timer
    { toggle_period_sec := period_sec / 2,
      next_toggle_time := none,
      toggle_state := false,
      is_rising := false,
      is_falling := false } curr_time_sec

/-- `_Single_Square_Wave_Timer.is_high()`. -/
def Single_Square_Wave_Timer.is_high (t : Single_Square_Wave_Timer) : Bool :=
  t.toggle_state

/-- `_Single_Square_Wave_Timer.is_rising()`. -/
def Single_Square_Wave_Timer.isRis (t : Single_Square_Wave_Timer) : Bool :=
  t.is_rising

/-- `_Single_Square_Wave_Timer.is_falling()`. -/
def Single_Square_Wave_Timer.isFal (t : Single_Square_Wave_Timer) : Bool :=
  t.is_falling

/-- Registry state `Square_Wave_Timer`: the `_timers` dict (modelled as an
association list in insertion order) and `_curr_time_sec` (initially
`None`). -/
structure Square_Wave_Timer where
  timers : List (ℚ × Single_Square_Wave_Timer)
  curr_time_sec : Option ℚ
deriving DecidableEq, Repr

/-- `Square_Wave_Timer.__init__()`: empty dict, unset current time. -/
def Square_Wave_Timer.init : Square_Wave_Timer :=
  { timers := [], curr_time_sec := none }

/-- Dict membership / lookup `self._timers[period_sec]` (float key,
exact equality). -/
def lookupTimer (timers : List (ℚ × Single_Square_Wave_Timer)) (p : ℚ) :
    Option Single_Square_Wave_Timer :=
  match timers with
  | [] => none
  | (q, tm) :: rest => if q = p then some tm else lookupTimer rest p

/-- The loop body of `Square_Wave_Timer.update`: call `update_timer` on
every stored timer, in insertion order. -/
def update_all (timers : List (ℚ × Single_Square_Wave_Timer)) (c : ℚ) :
    Except PyError (List (ℚ × Single_Square_Wave_Timer)) :=
  match timers with
  | [] => .ok []
  | (p, tm) :: rest => do
    let tm' ← update_timer tm (some c)
    let rest' ← update_all rest c
    .ok ((p, tm') :: rest')

/-- `Square_Wave_Timer.update(curr_time_sec)`: store the time and advance
every registered timer with it. -/
def Square_Wave_Timer.update (r : Square_Wave_Timer) (c : ℚ) :
    Except PyError Square_Wave_Timer := do
  let ts ← update_all r.timers c
  .ok { timers := ts, curr_time_sec := some c }

/-- `Square_Wave_Timer._create_missing_timer(period_sec)`: lazily create a
timer for an unseen period, seeded with the registry's stored current time
(possibly `None`). -/
def Square_Wave_Timer.create_missing_timer (r : Square_Wave_Timer) (p : ℚ) :
    Except PyError Square_Wave_Timer :=
  match lookupTimer r.timers p with
  | some _ => .ok r
  | none => do
    let tm ← singleTimer_init p r.curr_time_sec
    .ok { r with timers := r.timers ++ [(p, tm)] }

/-- `Square_Wave_Timer.is_high(period_sec)`: ensure the timer exists, then
read its level.  Returns the (possibly grown) registry together with the
boolean, since creation is a side effect. -/
def Square_Wave_Timer.is_high (r : Square_Wave_Timer) (p : ℚ) :
    Except PyError (Square_Wave_Timer × Bool) := do
  let r' ← r.create_missing_timer p
  match lookupTimer r'.timers p with
  | some tm => .ok (r', tm.is_high)
  | none => .error .keyError

/-- `Square_Wave_Timer.is_rising(period_sec)`. -/
def Square_Wave_Timer.is_rising (r : Square_Wave_Timer) (p : ℚ) :
    Except PyError (Square_Wave_Timer × Bool) := do
  let r' ← r.create_missing_timer p
  match lookupTimer r'.timers p with
  | some tm => .ok (r', tm.isRis)
  | none => .error .keyError

/-- `Square_Wave_Timer.is_falling(period_sec)`. -/
def Square_Wave_Timer.is_falling (r : Square_Wave_Timer) (p : ℚ) :
    Except PyError (Square_Wave_Timer × Bool) := do
  let r' ← r.create_missing_timer p
  match lookupTimer r'.timers p with
  | some tm => .ok (r', tm.isFal)
  | none => .error .keyError

/-- Run a single timer through a list of update times. -/
def run_timer (tm : Single_Square_Wave_Timer) (ts : List ℚ) :
    Except PyError Single_Square_Wave_Timer :=
  match ts with
  | [] => .ok tm
  | c :: rest => do
    let tm' ← update_timer tm (some c)
    run_timer tm' rest

/-- Run a registry through a list of `update` times. -/
def run_registry (r : Square_Wave_Timer) (ts : List ℚ) :
    Except PyError Square_Wave_Timer :=
  match ts with
  | [] => .ok r
  | c :: rest => do
    let r' ← r.update c
    run_registry r' rest

/-- One tick of the demo loop at the bottom of `timers.py`: `update(t)`,
then query `is_rising(10)`, `is_falling(10)`, `is_high(10)`.  Records the
three query results. -/
def scenario_step (r : Square_Wave_Timer) (t : ℚ) :
    Except PyError (Square_Wave_Timer × (Bool × Bool × Bool)) := do
  let r ← r.update t
  let (r, ri) ← r.is_rising 10
  let (r, fa) ← r.is_falling 10
  let (r, hi) ← r.is_high 10
  .ok (r, (ri, fa, hi))

/-- Run the demo loop over a list of tick times, collecting per-tick
`(is_rising 10, is_falling 10, is_high 10)` triples. -/
def run_scenario (r : Square_Wave_Timer) (ts : List ℚ) :
    Except PyError (List (Bool × Bool × Bool)) :=
  match ts with
  | [] => .ok []
  | t :: rest => do
    let (r', out) ← scenario_step r t
    let outs ← run_scenario r' rest
    .ok (out :: outs)

/-- The spec's end-to-end scenario: a fresh registry advanced at
t = 0, 1, ..., 16, querying period 10 each tick. -/
def scenario_outputs : Except PyError (List (Bool × Bool × Bool)) :=
  run_scenario Square_Wave_Timer.init
    [0, 1, 2, 3, 4, 5, 6, 7, 8, 9, 10, 11, 12, 13, 14, 15, 16]

/-! ### Step characterization lemmas -/

/-- Characterization of `update_timer` on a timer whose deadline is set:
when the supplied time strictly exceeds the deadline the state flips, the
edge flags mark the direction, and the deadline advances by the half
period; otherwise only the edge flags are cleared. -/
theorem update_timer_some_eq (t : Single_Square_Wave_Timer) (d c : ℚ)
    (h : t.next_toggle_time = some d) :
    update_timer t (some c) =
      if d < c then
        .ok { toggle_period_sec := t.toggle_period_sec,
              next_toggle_time := some (d + t.toggle_period_sec),
              toggle_state := !t.toggle_state,
              is_rising := !t.toggle_state,
              is_falling := t.toggle_state }
      else
        .ok { t with is_rising := false, is_falling := false } := by
  obtain ⟨hp, nt, s, ri, fa⟩ := t
  simp only [Single_Square_Wave_Timer.next_toggle_time] at h
  subst h
  by_cases hdc : d < c <;>
    simp [update_timer, pyGT, set_next_toggle_time, hdc, Bind.bind, Except.bind,
      Pure.pure, Except.pure]

/-- Characterization of `update_timer` on a timer whose deadline is unset
(only reachable during construction): the deadline is first scheduled at
`c + half`, then the usual comparison runs against that fresh deadline. -/
theorem update_timer_none_eq (t : Single_Square_Wave_Timer) (c : ℚ)
    (h : t.next_toggle_time = none) :
    update_timer t (some c) =
      if c + t.toggle_period_sec < c then
        .ok { toggle_period_sec := t.toggle_period_sec,
              next_toggle_time :=
                some (c + t.toggle_period_sec + t.toggle_period_sec),
              toggle_state := !t.toggle_state,
              is_rising := !t.toggle_state,
              is_falling := t.toggle_state }
      else
        .ok { t with next_toggle_time := some (c + t.toggle_period_sec),
                     is_rising := false, is_falling := false } := by
  obtain ⟨hp, nt, s, ri, fa⟩ := t
  simp only [Single_Square_Wave_Timer.next_toggle_time] at h
  subst h
  by_cases hdc : c + hp < c <;>
    simp [update_timer, pyGT, set_next_toggle_time, hdc, Bind.bind, Except.bind,
      Pure.pure, Except.pure]

/-- Construction with a numeric start time and non-negative period yields
the quiescent timer: half period `p / 2`, deadline `t0 + p / 2`, state low,
both edges clear. -/
theorem singleTimer_init_eq (p t0 : ℚ) (hp : 0 ≤ p) :
    singleTimer_init p (some t0) =
      .ok { toggle_period_sec := p / 2,
            next_toggle_time := some (t0 + p / 2),
            toggle_state := false,
            is_rising := false,
            is_falling := false } := by
  have hlt : ¬ (t0 + p / 2 < t0) := by linarith
  rw [singleTimer_init, update_timer_none_eq _ _ rfl]
  simp [hlt]

/-- Construction with a numeric start time always sets the half period to
`period_sec / 2`, whatever the sign of the period. -/
theorem toggle_period_of_init (q u : ℚ) (tm : Single_Square_Wave_Timer)
    (h : singleTimer_init q (some u) = .ok tm) :
    tm.toggle_period_sec = q / 2 := by
  rw [singleTimer_init, update_timer_none_eq _ _ rfl] at h
  by_cases hdc : u + q / 2 < u <;> simp [hdc] at h <;> simp [← h]

/-- Appending a fresh key at the end of the association list makes it the
lookup result when the key was previously absent. -/
theorem lookupTimer_append (xs : List (ℚ × Single_Square_Wave_Timer))
    (p : ℚ) (tm : Single_Square_Wave_Timer)
    (h : lookupTimer xs p = none) :
    lookupTimer (xs ++ [(p, tm)]) p = some tm := by
  induction xs with
  | nil => simp [lookupTimer]
  | cons hd tl ih =>
    obtain ⟨q, tq⟩ := hd
    by_cases hq : q = p
    · simp [lookupTimer, hq] at h
    · simp only [lookupTimer, hq, if_false, List.cons_append] at h ⊢
      exact ih h

/-! ### Claims -/

/-- C1 counterexample: creating a timer with the non-positive period −2 at
time 0 does not fail — there is no validation in
`_Single_Square_Wave_Timer.__init__`, so no `InvalidArgument` error is
raised (the construction even toggles immediately, because the freshly
scheduled deadline −1 lies in the past). -/
theorem create_negative_period_succeeds_cex :
    singleTimer_init (-2) (some 0) =
      .ok { toggle_period_sec := -1,
            next_toggle_time := some (-2),
            toggle_state := true,
            is_rising := true,
            is_falling := false } := by
  rw [singleTimer_init, update_timer_none_eq _ _ rfl]
  norm_num

/-- C1 (amended): toggle creation with a non-positive period and a numeric
start time succeeds without raising any error; the code performs no period
validation, so no `InvalidArgument` failure exists in the timer core. -/
theorem create_nonpositive_period_no_error (p t0 : ℚ) (_hp : p ≤ 0) :
    ∃ tm, singleTimer_init p (some t0) = .ok tm := by
  rw [singleTimer_init, update_timer_none_eq _ _ rfl]
  by_cases hdc : t0 + p / 2 < t0 <;> simp [hdc]

/-- C1 witness: instantiation of the amended claim at period −2, time 3. -/
theorem create_nonpositive_period_no_error_witness :
    ∃ tm, singleTimer_init (-2) (some 3) = .ok tm :=
  create_nonpositive_period_no_error (-2) 3 (by norm_num)

/-- C2 counterexample: on a freshly constructed registry on which
`update`/advance has never been called, the very first query of any period
crashes (the lazily created timer adds `None + float`, a TypeError) — the
unset start time is *not* treated as 0. -/
theorem fresh_registry_query_crashes_cex :
    Square_Wave_Timer.init.is_high 10 = .error .typeError ∧
    Square_Wave_Timer.init.is_rising 10 = .error .typeError ∧
    Square_Wave_Timer.init.is_falling 10 = .error .typeError :=
  ⟨rfl, rfl, rfl⟩

/-- C2 (amended): once `advance`/`update` has been called at least once,
registry queries are total: for every positive period, each of
`is_high`/`is_rising`/`is_falling` on the advanced registry returns
normally (the lazily created toggle is seeded at the stored time). -/
theorem queries_total_after_first_update (p t0 : ℚ) (hp : 0 < p) :
    ∃ r, Square_Wave_Timer.init.update t0 = .ok r ∧
      (∃ r2 b, r.is_high p = .ok (r2, b)) ∧
      (∃ r2 b, r.is_rising p = .ok (r2, b)) ∧
      (∃ r2 b, r.is_falling p = .ok (r2, b)) := by
  refine ⟨⟨[], some t0⟩, rfl, ?_, ?_, ?_⟩ <;>
    simp [Square_Wave_Timer.is_high, Square_Wave_Timer.is_rising,
      Square_Wave_Timer.is_falling, Square_Wave_Timer.create_missing_timer,
      lookupTimer, singleTimer_init_eq p t0 hp.le, Bind.bind, Except.bind]

/-- C2 witness: instantiation of the amended claim at period 10, time 0. -/
theorem queries_total_after_first_update_witness :
    ∃ r, Square_Wave_Timer.init.update 0 = .ok r ∧
      (∃ r2 b, r.is_high 10 = .ok (r2, b)) ∧
      (∃ r2 b, r.is_rising 10 = .ok (r2, b)) ∧
      (∃ r2 b, r.is_falling 10 = .ok (r2, b)) :=
  queries_total_after_first_update 10 0 (by norm_num)

/-- C4 counterexample: in the end-to-end scenario (fresh registry, updates
at t = 0, 1, ..., 16, querying period 10 each tick), `is_high(10)` at
t = 16 is `true` — not `false` as the claim states for all of t = 11..16 —
because the t = 16 update passes the deadline 15 and rises again. -/
theorem scenario_high_at_16_cex :
    scenario_outputs.map
      (fun outs => (outs.getD 16 (false, false, false)).2.2) = .ok true := by
  norm_num [scenario_outputs, run_scenario, scenario_step, Square_Wave_Timer.update,
    update_all, update_timer, pyGT, set_next_toggle_time, Square_Wave_Timer.is_high,
    Square_Wave_Timer.is_rising, Square_Wave_Timer.is_falling,
    Square_Wave_Timer.create_missing_timer, singleTimer_init, lookupTimer,
    Square_Wave_Timer.init, Single_Square_Wave_Timer.is_high,
    Single_Square_Wave_Timer.isRis, Single_Square_Wave_Timer.isFal,
    Bind.bind, Except.bind, Pure.pure, Except.pure, Except.map]

/-- C4 (amended): in the end-to-end scenario the per-tick
`(is_rising 10, is_falling 10, is_high 10)` triples are: all false for
t = 0..5; rising and high at t = 6; high (no edges) for t = 7..10; falling
(low) at t = 11; all false for t = 12..15; rising and high again at
t = 16.  So `is_high(10)` is true exactly for t ∈ 6..10 ∪ {16}, false for
t ∈ 11..15. -/
theorem scenario_full_trace :
    scenario_outputs = .ok
      [(false, false, false), (false, false, false), (false, false, false),
       (false, false, false), (false, false, false), (false, false, false),
       (true, false, true), (false, false, true), (false, false, true),
       (false, false, true), (false, false, true), (false, true, false),
       (false, false, false), (false, false, false), (false, false, false),
       (false, false, false), (true, false, true)] := by
  norm_num [scenario_outputs, run_scenario, scenario_step, Square_Wave_Timer.update,
    update_all, update_timer, pyGT, set_next_toggle_time, Square_Wave_Timer.is_high,
    Square_Wave_Timer.is_rising, Square_Wave_Timer.is_falling,
    Square_Wave_Timer.create_missing_timer, singleTimer_init, lookupTimer,
    Square_Wave_Timer.init, Single_Square_Wave_Timer.is_high,
    Single_Square_Wave_Timer.isRis, Single_Square_Wave_Timer.isFal,
    Bind.bind, Except.bind, Pure.pure, Except.pure]

/-- C9: querying a period already present in the registry's mapping never
replaces the existing timer: `_create_missing_timer` is the identity, the
registry is returned unchanged, and every field of the stored timer is
untouched — the query merely reads `toggle_state`/`is_rising`/`is_falling`. -/
theorem existing_period_query_no_change (r : Square_Wave_Timer) (p : ℚ)
    (tm : Single_Square_Wave_Timer) (h : lookupTimer r.timers p = some tm) :
    r.create_missing_timer p = .ok r ∧
    r.is_high p = .ok (r, tm.toggle_state) ∧
    r.is_rising p = .ok (r, tm.is_rising) ∧
    r.is_falling p = .ok (r, tm.is_falling) := by
  have hc : r.create_missing_timer p = .ok r := by
    simp [Square_Wave_Timer.create_missing_timer, h]
  refine ⟨hc, ?_, ?_, ?_⟩ <;>
    simp [Square_Wave_Timer.is_high, Square_Wave_Timer.is_rising,
      Square_Wave_Timer.is_falling, hc, h, Bind.bind, Except.bind,
      Single_Square_Wave_Timer.is_high, Single_Square_Wave_Timer.isRis,
      Single_Square_Wave_Timer.isFal]

/-- C9 witness: instantiation at a one-timer registry. -/
theorem existing_period_query_no_change_witness :
    ({ timers := [(10, ⟨5, some 5, false, false, false⟩)],
       curr_time_sec := some 0 } : Square_Wave_Timer).create_missing_timer 10 =
      .ok { timers := [(10, ⟨5, some 5, false, false, false⟩)],
            curr_time_sec := some 0 } ∧
    ({ timers := [(10, ⟨5, some 5, false, false, false⟩)],
       curr_time_sec := some 0 } : Square_Wave_Timer).is_high 10 =
      .ok ({ timers := [(10, ⟨5, some 5, false, false, false⟩)],
             curr_time_sec := some 0 }, false) ∧
    ({ timers := [(10, ⟨5, some 5, false, false, false⟩)],
       curr_time_sec := some 0 } : Square_Wave_Timer).is_rising 10 =
      .ok ({ timers := [(10, ⟨5, some 5, false, false, false⟩)],
             curr_time_sec := some 0 }, false) ∧
    ({ timers := [(10, ⟨5, some 5, false, false, false⟩)],
       curr_time_sec := some 0 } : Square_Wave_Timer).is_falling 10 =
      .ok ({ timers := [(10, ⟨5, some 5, false, false, false⟩)],
             curr_time_sec := some 0 }, false) :=
  existing_period_query_no_change
    { timers := [(10, ⟨5, some 5, false, false, false⟩)],
      curr_time_sec := some 0 } 10 ⟨5, some 5, false, false, false⟩ (by
        simp [lookupTimer])

/-- C10: once the deadline is set, an update at any time less than or equal
to the stored deadline — including a time earlier than a previous update —
returns normally and causes no transition: the state and the deadline are
unchanged, and both edge flags are reset to false. -/
theorem update_at_or_before_deadline_no_transition
    (t : Single_Square_Wave_Timer) (d c : ℚ)
    (h : t.next_toggle_time = some d) (hc : c ≤ d) :
    ∃ t', update_timer t (some c) = .ok t' ∧
      t'.toggle_state = t.toggle_state ∧
      t'.next_toggle_time = t.next_toggle_time ∧
      t'.is_rising = false ∧ t'.is_falling = false := by
  rw [update_timer_some_eq t d c h]
  simp [not_lt.mpr hc]

/-- C10 witness: a timer with deadline 5 updated at the earlier time 3
(after having previously seen time 6, hence the high state and set rising
flag) keeps its state and deadline and clears the flags. -/
theorem update_before_deadline_witness :
    ∃ t', update_timer ⟨5, some 10, true, true, false⟩ (some 3) = .ok t' ∧
      t'.toggle_state = true ∧
      t'.next_toggle_time = some 10 ∧
      t'.is_rising = false ∧ t'.is_falling = false := by
  have h := update_at_or_before_deadline_no_transition
    ⟨5, some 10, true, true, false⟩ 10 3 rfl (by norm_num)
  simpa using h

/-- C3: with the deadline set to `d`, a single `update_timer` call changes
the state at most once — the new state is the old one flipped exactly when
the supplied time strictly exceeds `d` (equality does not trigger), and is
unchanged otherwise; on a transition the deadline moves to `d` plus the
stored half period only, so toggles missed within one update are not
caught up. -/
theorem update_changes_state_iff_past_deadline
    (t : Single_Square_Wave_Timer) (d c : ℚ)
    (h : t.next_toggle_time = some d) :
    ∃ t', update_timer t (some c) = .ok t' ∧
      t'.toggle_state = (if d < c then !t.toggle_state else t.toggle_state) ∧
      ((t'.toggle_state ≠ t.toggle_state) ↔ d < c) ∧
      t'.next_toggle_time =
        some (if d < c then d + t.toggle_period_sec else d) := by
  rw [update_timer_some_eq t d c h]
  by_cases hdc : d < c
  · rw [if_pos hdc]
    exact ⟨_, rfl, by simp [hdc], by simp [hdc], by simp [hdc]⟩
  · rw [if_neg hdc]
    exact ⟨_, rfl, by simp [hdc], by simp [hdc], by simp [hdc, h]⟩

/-- C3 witness: a period-10 timer (half period 5, deadline 5) updated at
time 6 flips from low to high and reschedules to 10. -/
theorem update_changes_state_witness :
    ∃ t', update_timer ⟨5, some 5, false, false, false⟩ (some 6) = .ok t' ∧
      t'.toggle_state = (if (5 : ℚ) < 6 then !false else false) ∧
      ((t'.toggle_state ≠ false) ↔ (5 : ℚ) < 6) ∧
      t'.next_toggle_time = some (if (5 : ℚ) < 6 then 5 + 5 else 5) :=
  update_changes_state_iff_past_deadline ⟨5, some 5, false, false, false⟩ 5 6 rfl

/-- C5: on every update that causes a transition (supplied time past the
deadline `d`), the new deadline is exactly `d` plus the stored half period
(`toggle_period_sec`, which `singleTimer_init` sets to `period / 2` — see
`toggle_period_of_init` — and which updates never change), however far the
supplied time overshot `d`.  E.g. for period 10 seeded at 0 (deadline 5),
an update at 12 makes the next deadline 10, not 17. -/
theorem deadline_advances_by_half_period
    (t : Single_Square_Wave_Timer) (d c : ℚ)
    (h : t.next_toggle_time = some d) (hc : d < c) :
    ∃ t', update_timer t (some c) = .ok t' ∧
      t'.next_toggle_time = some (d + t.toggle_period_sec) ∧
      t'.toggle_period_sec = t.toggle_period_sec ∧
      t'.toggle_state = !t.toggle_state := by
  rw [update_timer_some_eq t d c h, if_pos hc]
  exact ⟨_, rfl, rfl, rfl, rfl⟩

/-- C5 witness: the spec's own example — period 10 seeded at t = 0
(half period 5, deadline 5), updated only at t = 12: one transition, and
the next deadline becomes 5 + 5 = 10 rather than 17. -/
theorem deadline_advances_witness :
    ∃ t', update_timer ⟨5, some 5, false, false, false⟩ (some 12) = .ok t' ∧
      t'.next_toggle_time = some (5 + 5) ∧
      t'.toggle_period_sec = 5 ∧
      t'.toggle_state = !false :=
  deadline_advances_by_half_period ⟨5, some 5, false, false, false⟩ 5 12 rfl
    (by norm_num)

/-- C6: edge-flag invariant.  (1) A toggle created with a positive period
and a numeric time starts low with both edge flags false.  (2) After any
update call, `is_rising` and `is_falling` are never both true; if the call
caused a transition then `is_rising` equals the new state (true on
low→high) and `is_falling` its negation (true on high→low), so exactly one
of them is set; if it caused no transition both are false. -/
theorem edge_flags_invariant :
    (∀ q u : ℚ, 0 < q → ∀ tm : Single_Square_Wave_Timer,
        singleTimer_init q (some u) = .ok tm →
        tm.is_rising = false ∧ tm.is_falling = false ∧
        tm.toggle_state = false) ∧
    (∀ (t : Single_Square_Wave_Timer) (c : ℚ)
        (t' : Single_Square_Wave_Timer), update_timer t (some c) = .ok t' →
        ((t'.is_rising && t'.is_falling) = false ∧
         (t'.toggle_state ≠ t.toggle_state →
            t'.is_rising = t'.toggle_state ∧
            t'.is_falling = !t'.toggle_state) ∧
         (t'.toggle_state = t.toggle_state →
            t'.is_rising = false ∧ t'.is_falling = false))) := by
  constructor
  · intro q u hq tm hinit
    rw [singleTimer_init_eq q u hq.le] at hinit
    simp only [Except.ok.injEq] at hinit
    subst hinit
    exact ⟨rfl, rfl, rfl⟩
  · intro t c t' hup
    cases hnt : t.next_toggle_time with
    | none =>
      rw [update_timer_none_eq t c hnt] at hup
      by_cases hdc : c + t.toggle_period_sec < c
      · rw [if_pos hdc] at hup
        simp only [Except.ok.injEq] at hup
        subst hup
        refine ⟨by simp, fun _ => ⟨rfl, by simp⟩, fun he => ?_⟩
        simp at he
      · rw [if_neg hdc] at hup
        simp only [Except.ok.injEq] at hup
        subst hup
        exact ⟨by simp, fun he => absurd rfl he, fun _ => ⟨rfl, rfl⟩⟩
    | some d =>
      rw [update_timer_some_eq t d c hnt] at hup
      by_cases hdc : d < c
      · rw [if_pos hdc] at hup
        simp only [Except.ok.injEq] at hup
        subst hup
        refine ⟨by simp, fun _ => ⟨rfl, by simp⟩, fun he => ?_⟩
        simp at he
      · rw [if_neg hdc] at hup
        simp only [Except.ok.injEq] at hup
        subst hup
        exact ⟨by simp, fun he => absurd rfl he, fun _ => ⟨rfl, rfl⟩⟩

/-- C6 witness: the freshly created period-10 timer at t = 0 is low with
clear flags, and the low→high transition at t = 6 sets `is_rising` only. -/
theorem edge_flags_invariant_witness :
    (false = false ∧ false = false ∧ false = false) ∧
    ((true && false) = false ∧
     (true ≠ false → true = true ∧ false = !true) ∧
     (true = false → true = false ∧ false = false)) :=
  ⟨edge_flags_invariant.1 10 0 (by norm_num) ⟨5, some 5, false, false, false⟩
      (by rw [singleTimer_init_eq 10 0 (by norm_num)]; norm_num),
   edge_flags_invariant.2 ⟨5, some 5, false, false, false⟩ 6
      ⟨5, some 10, true, true, false⟩
      (by rw [update_timer_some_eq _ 5 6 rfl, if_pos (by norm_num)]; norm_num)⟩

/-- C7: the first query of a previously-unseen positive period on a registry
whose stored time is the number `T` returns `false` for each of
`is_high`/`is_rising`/`is_falling`, whatever `T` is — the lazily created
toggle starts low with clear flags and does not replay transitions that
would have occurred before its creation. -/
theorem first_query_of_unseen_period_low (r : Square_Wave_Timer) (p T : ℚ)
    (hp : 0 < p) (hT : r.curr_time_sec = some T)
    (habsent : lookupTimer r.timers p = none) :
    (∃ r2, r.is_high p = .ok (r2, false)) ∧
    (∃ r2, r.is_rising p = .ok (r2, false)) ∧
    (∃ r2, r.is_falling p = .ok (r2, false)) := by
  have hcreate : r.create_missing_timer p =
      .ok { r with timers := r.timers ++
        [(p, { toggle_period_sec := p / 2,
               next_toggle_time := some (T + p / 2),
               toggle_state := false,
               is_rising := false,
               is_falling := false })] } := by
    simp [Square_Wave_Timer.create_missing_timer, habsent, hT,
      singleTimer_init_eq p T hp.le, Bind.bind, Except.bind]
  have hlook := lookupTimer_append r.timers p
    { toggle_period_sec := p / 2, next_toggle_time := some (T + p / 2),
      toggle_state := false, is_rising := false, is_falling := false } habsent
  refine ⟨⟨{ r with timers := r.timers ++
        [(p, { toggle_period_sec := p / 2,
               next_toggle_time := some (T + p / 2), toggle_state := false,
               is_rising := false, is_falling := false })] }, ?_⟩,
      ⟨{ r with timers := r.timers ++
        [(p, { toggle_period_sec := p / 2,
               next_toggle_time := some (T + p / 2), toggle_state := false,
               is_rising := false, is_falling := false })] }, ?_⟩,
      ⟨{ r with timers := r.timers ++
        [(p, { toggle_period_sec := p / 2,
               next_toggle_time := some (T + p / 2), toggle_state := false,
               is_rising := false, is_falling := false })] }, ?_⟩⟩ <;>
    simp [Square_Wave_Timer.is_high, Square_Wave_Timer.is_rising,
      Square_Wave_Timer.is_falling, hcreate, hlook, Bind.bind, Except.bind,
      Single_Square_Wave_Timer.is_high, Single_Square_Wave_Timer.isRis,
      Single_Square_Wave_Timer.isFal]

/-- C7 witness: first query of period 10 on a registry last advanced to
time 7 (well past several "virtual" toggles of a timer seeded at 0). -/
theorem first_query_of_unseen_period_low_witness :
    (∃ r2, Square_Wave_Timer.is_high ⟨[], some 7⟩ 10 = .ok (r2, false)) ∧
    (∃ r2, Square_Wave_Timer.is_rising ⟨[], some 7⟩ 10 = .ok (r2, false)) ∧
    (∃ r2, Square_Wave_Timer.is_falling ⟨[], some 7⟩ 10 = .ok (r2, false)) :=
  first_query_of_unseen_period_low ⟨[], some 7⟩ 10 7 (by norm_num) rfl rfl

/-- Pointwise action of the registry's update loop: the timer stored under
key `p` is updated exactly by its own `update_timer` call, whatever else is
in the list. -/
theorem update_all_lookup (xs : List (ℚ × Single_Square_Wave_Timer))
    (c p : ℚ) (tm : Single_Square_Wave_Timer)
    (xs' : List (ℚ × Single_Square_Wave_Timer))
    (h : lookupTimer xs p = some tm) (hr : update_all xs c = .ok xs') :
    ∃ tm', update_timer tm (some c) = .ok tm' ∧
      lookupTimer xs' p = some tm' := by
  induction xs generalizing xs' with
  | nil => simp [lookupTimer] at h
  | cons hd tl ih =>
    obtain ⟨q, tq⟩ := hd
    simp only [update_all] at hr
    cases hu : update_timer tq (some c) with
    | error e => rw [hu] at hr; simp [Bind.bind, Except.bind] at hr
    | ok tq' =>
      rw [hu] at hr
      cases ha : update_all tl c with
      | error e =>
        rw [ha] at hr; simp [Bind.bind, Except.bind] at hr
      | ok tl' =>
        rw [ha] at hr
        simp only [Bind.bind, Except.bind, Except.ok.injEq] at hr
        subst hr
        by_cases hq : q = p
        · subst hq
          simp [lookupTimer] at h
          subst h
          exact ⟨tq', hu, by simp [lookupTimer]⟩
        · simp only [lookupTimer, if_neg hq] at h
          obtain ⟨tm', h1, h2⟩ := ih tl' h ha
          exact ⟨tm', h1, by simp [lookupTimer, hq, h2]⟩

/-- Pointwise action of a single registry `update` call. -/
theorem registry_update_lookup (r : Square_Wave_Timer) (c p : ℚ)
    (tm : Single_Square_Wave_Timer) (r' : Square_Wave_Timer)
    (h : lookupTimer r.timers p = some tm) (hr : r.update c = .ok r') :
    ∃ tm', update_timer tm (some c) = .ok tm' ∧
      lookupTimer r'.timers p = some tm' := by
  simp only [Square_Wave_Timer.update] at hr
  cases ha : update_all r.timers c with
  | error e => rw [ha] at hr; simp [Bind.bind, Except.bind] at hr
  | ok xs' =>
    rw [ha] at hr
    simp only [Bind.bind, Except.bind, Except.ok.injEq] at hr
    obtain ⟨tm', h1, h2⟩ := update_all_lookup r.timers c p tm xs' h ha
    exact ⟨tm', h1, by rw [← hr]; exact h2⟩

/-- C8: independence of registered periods.  For any registry, any stored
timer (key `p`) and any sequence of `update`/advance times, the timer found
under `p` afterwards is exactly the result of running that timer alone
through the same sequence — so transitions of any other period's toggle
never alter its state or `next_toggle_time`. -/
theorem registered_periods_independent (ts : List ℚ)
    (r : Square_Wave_Timer) (p : ℚ) (tm : Single_Square_Wave_Timer)
    (r' : Square_Wave_Timer) (h : lookupTimer r.timers p = some tm)
    (hrun : run_registry r ts = .ok r') :
    ∃ tm', run_timer tm ts = .ok tm' ∧
      lookupTimer r'.timers p = some tm' := by
  induction ts generalizing r tm with
  | nil =>
    simp only [run_registry, Except.ok.injEq] at hrun
    subst hrun
    exact ⟨tm, by simp [run_timer], h⟩
  | cons c rest ih =>
    simp only [run_registry] at hrun
    cases hu : r.update c with
    | error e => rw [hu] at hrun; simp [Bind.bind, Except.bind] at hrun
    | ok r1 =>
      rw [hu] at hrun
      simp only [Bind.bind, Except.bind] at hrun
      obtain ⟨tm1, h1, h2⟩ := registry_update_lookup r c p tm r1 h hu
      obtain ⟨tm', h3, h4⟩ := ih r1 tm1 h2 hrun
      refine ⟨tm', ?_, h4⟩
      simp only [run_timer, h1, Bind.bind, Except.bind]
      exact h3

/-- C8 witness: a registry holding period-2 and period-4 timers (both
seeded at 0) advanced at t = 1 then t = 3: the period-2 timer evolves
exactly as it does alone, ending high with deadline 2. -/
theorem registered_periods_independent_witness :
    ∃ tm', run_timer ⟨1, some 1, false, false, false⟩ [1, 3] = .ok tm' ∧
      lookupTimer
        (Square_Wave_Timer.timers
          ⟨[(2, ⟨1, some 2, true, true, false⟩),
            (4, ⟨2, some 4, true, true, false⟩)], some 3⟩) 2 = some tm' :=
  registered_periods_independent [1, 3]
    ⟨[(2, ⟨1, some 1, false, false, false⟩),
      (4, ⟨2, some 2, false, false, false⟩)], some 0⟩
    2 ⟨1, some 1, false, false, false⟩
    ⟨[(2, ⟨1, some 2, true, true, false⟩),
      (4, ⟨2, some 4, true, true, false⟩)], some 3⟩
    (by simp [lookupTimer])
    (by norm_num [run_registry, Square_Wave_Timer.update, update_all,
      update_timer, pyGT, set_next_toggle_time, Bind.bind, Except.bind,
      Pure.pure, Except.pure])

end StationTimers
